import Mathlib

set_option maxRecDepth 8000

/-!
Verification of `development/installer.py`, the single installer script of the
repository.  The script is orchestration glue around external collaborators
(the GitHub REST API, `git ls-remote`, the `bench` CLI and the filesystem), so
we embed it as pure Lean functions from the parsed options plus a "world"
record (the responses of those collaborators) to the ordered trace of
observable events (colored log lines, HTTP requests, subprocess invocations)
together with a termination outcome (normal return, i.e. exit code 0, versus
an uncaught Python exception, i.e. a nonzero exit).  Every definition is
translated directly from the source; comments cite the source lines.

The first section provides executable models of the Python string operations
the script uses (`startswith`, `replace`, `split`, `strip`, `join`, `in`,
`sorted`), written by structural recursion over `List Char` so that concrete
runs reduce inside the kernel.
-/

namespace Installer

/-! ### Python string primitives -/

/-- Python `s.startswith(pre)`. -/
def pyStartsWith (s pre : String) : Bool := pre.data.isPrefixOf s.data

/-- Fuel-indexed worker for `pyReplace`; the fuel starts at the length of the
subject string, which suffices because every step consumes at least one
character (the patterns used by the script are non-empty). -/
def replaceLoop (pat repl : List Char) : Nat → List Char → List Char
  | 0, s => s
  | fuel+1, s =>
    match s with
    | [] => []
    | c :: rest =>
      if pat.isPrefixOf s then repl ++ replaceLoop pat repl fuel (s.drop pat.length)
      else c :: replaceLoop pat repl fuel rest

/-- Python `s.replace(pat, repl)`: replace every non-overlapping occurrence,
left to right. -/
def pyReplace (s pat repl : String) : String :=
  ⟨replaceLoop pat.data repl.data s.data.length s.data⟩

/-- Fuel-indexed worker for `pySplitOn`; `acc` holds the current chunk in
reverse. -/
def pySplitOnAux (sep : List Char) : Nat → List Char → List Char → List String
  | _, acc, [] => [⟨acc.reverse⟩]
  | 0, acc, s => [⟨acc.reverse ++ s⟩]
  | fuel+1, acc, c :: rest =>
    if sep.isPrefixOf (c :: rest) then
      (⟨acc.reverse⟩ : String) :: pySplitOnAux sep fuel [] ((c :: rest).drop sep.length)
    else pySplitOnAux sep fuel (c :: acc) rest

/-- Python `s.split(sep)` for a non-empty separator: empty chunks are kept,
and the empty string yields `[""]`. -/
def pySplitOn (s sep : String) : List String :=
  pySplitOnAux sep.data s.data.length [] s.data

/-- The whitespace set of Python `str.strip()` / `str.split()`. -/
def pyIsSpace (c : Char) : Bool :=
  c == ' ' || c == '\t' || c == '\n' || c == '\r' || c == '\x0b' || c == '\x0c'

/-- Python `s.strip()`: drop leading and trailing whitespace. -/
def pyStrip (s : String) : String :=
  ⟨((s.data.dropWhile pyIsSpace).reverse.dropWhile pyIsSpace).reverse⟩

/-- Worker for `pySplitWs`; `acc` holds the current word in reverse. -/
def splitWsAux : List Char → List Char → List String
  | acc, [] => if acc.isEmpty then [] else [⟨acc.reverse⟩]
  | acc, c :: rest =>
    if pyIsSpace c then
      (if acc.isEmpty then [] else [(⟨acc.reverse⟩ : String)]) ++ splitWsAux [] rest
    else splitWsAux (c :: acc) rest

/-- Python `s.split()` with no argument: split on whitespace runs, discarding
empty tokens. -/
def pySplitWs (s : String) : List String := splitWsAux [] s.data

/-- Python `sep.join(xs)`. -/
def pyJoin (sep : String) : List String → String
  | [] => ""
  | [x] => x
  | x :: y :: xs => x ++ sep ++ pyJoin sep (y :: xs)

/-- Worker for the Python substring test: does `pat` occur contiguously in the
subject? -/
def containsList (pat : List Char) : List Char → Bool
  | [] => pat.isEmpty
  | c :: rest => pat.isPrefixOf (c :: rest) || containsList pat rest

/-- Python `pat in s` on strings. -/
def strContainsSub (s pat : String) : Bool := containsList pat.data s.data

/-- Lexicographic comparison of code-point sequences, the Python `<=` on
strings (`Char.val` is the code point). -/
def pyCharListLe : List Char → List Char → Bool
  | [], _ => true
  | _ :: _, [] => false
  | a :: as, b :: bs =>
    if a.val.toNat < b.val.toNat then true
    else if b.val.toNat < a.val.toNat then false
    else pyCharListLe as bs

/-- The Python `<=` relation on strings, in decidable form. -/
def pyLe (a b : String) : Prop := pyCharListLe a.data b.data = true

instance : DecidableRel pyLe :=
  fun a b => instDecidableEqBool (pyCharListLe a.data b.data) true

/-- Python `sorted(xs)` on strings: ascending lexicographic order on code
points (a stable sort; when sortedness and the multiset of elements are
fixed, any sort agrees). -/
def pySorted (xs : List String) : List String := List.insertionSort pyLe xs

/-! ### Data model of the installer -/

/-- An observable effect of the script, in program order.
* `print lvl msg` models `cprint(msg, level=lvl)` (lines 9-28): level 1 is red,
  2 green, 3 yellow; the ANSI codes themselves are presentation.
* `httpGet url` models `requests.get(url, timeout=10)` (line 42).
* `gitLsRemote url` models `subprocess.run(["git","ls-remote","--heads",url],...)`
  (lines 51-56).
* `runShell cmd` models `subprocess.run(["/bin/bash","-i","-c",cmd],...)`
  (lines 215-222).
* `call argv cwd` models `subprocess.call(argv, cwd=os.path.join(os.getcwd(),cwd))`
  (used for every `bench set-config` and `bench new-site`); `cwd` is recorded
  relative to the process working directory. -/
inductive Event
  | print (level : Nat) (msg : String)
  | httpGet (url : String)
  | gitLsRemote (url : String)
  | runShell (cmd : String)
  | call (argv : List String) (cwd : String)
deriving DecidableEq, Repr

/-- Termination outcome of a run: `normal` is a plain return (process exit
code 0); `raised e` is an uncaught Python exception `e` (nonzero exit). -/
inductive Outcome
  | normal
  | raised (e : String)
deriving DecidableEq, Repr

/-- The parsed option set produced by `get_args_parser` (lines 102-187),
field per flag, with the same defaults.  Flags with default `None`
(`py_version`, `node_version`) are `Option String`. -/
structure Options where
  apps_json : String
  bench_name : String
  site_name : String
  frappe_repo : String
  frappe_branch : String
  py_version : Option String
  node_version : Option String
  verbose : Bool
  admin_password : String
  db_type : String
  list_branches : Bool
deriving DecidableEq, Repr

/-- The defaults of `get_args_parser` (lines 102-187). -/
def defaultOptions : Options where
  apps_json := "apps-example.json"
  bench_name := "frappe-bench"
  site_name := "development.localhost"
  frappe_repo := "https://github.com/sin-ev/backend"
  frappe_branch := "version-12"
  py_version := none
  node_version := none
  verbose := false
  admin_password := "123"
  db_type := "postgres"
  list_branches := false

/-- Python truthiness of an optional string (`if args.py_version:`):
`None` and the empty string are falsy. -/
def optTruthy : Option String → Bool
  | none => false
  | some s => s != ""

/-- Outcome of `response.json()` plus the `branch["name"]` extraction
(line 44): either the list of names, or a raised exception (malformed JSON,
unexpected shape). -/
inductive JsonOutcome
  | ok (names : List String)
  | err (e : String)
deriving DecidableEq, Repr

/-- Outcome of `requests.get(api_url, timeout=10)` (line 42): a raised
exception (connection error, timeout), or a response with a status code whose
body parses per `JsonOutcome`. -/
inductive HttpOutcome
  | exn (e : String)
  | resp (status : Nat) (json : JsonOutcome)
deriving DecidableEq, Repr

/-- Outcome of `subprocess.run(["git","ls-remote","--heads",url],...)`
(lines 51-56): a raised exception (e.g. `TimeoutExpired`), or completion with
a return code and captured stdout. -/
inductive LsOutcome
  | exn (e : String)
  | done (returncode : Int) (stdout : String)
deriving DecidableEq, Repr

/-- The external world seen by branch discovery. -/
structure DiscoveryWorld where
  http : HttpOutcome
  ls : LsOutcome
deriving DecidableEq, Repr

/-! ### Branch discovery and validation -/

/-- Lines 37-41: if the URL starts with `https://github.com/`, strip that
prefix (Python `str.replace`, hence every occurrence), split on `/`, and when
at least two parts remain build the GitHub API URL from the first two. -/
def githubApiUrl (repo_url : String) : Option String :=
  if pyStartsWith repo_url "https://github.com/" then
    match pySplitOn (pyReplace repo_url "https://github.com/" "") "/" with
    | owner :: repo :: _ =>
      some ("https://api.github.com/repos/" ++ owner ++ "/" ++ repo ++ "/branches")
    | _ => none
  else none

/-- Lines 57-65: parse `git ls-remote --heads` stdout.  `strip()`, split on
newlines, and for each non-empty line with at least two whitespace-separated
fields take the second field with every `refs/heads/` occurrence removed. -/
def parseLsRemote (stdout : String) : List String :=
  (pySplitOn (pyStrip stdout) "\n").foldl
    (fun acc line =>
      if line != "" then
        match pySplitWs line with
        | _ :: b :: _ => acc ++ [pyReplace b "refs/heads/" ""]
        | _ => acc
      else acc)
    []

/-- `get_available_branches` (lines 31-69).  Step 1 queries the GitHub API
inside a `try`: an exception from the request or from JSON handling is caught
and logged yellow; a non-GitHub URL, a too-short path or a non-200 response
just falls out of the `if` chain with no message.  A 200 response with
well-formed JSON returns the names immediately (even when empty).  Otherwise
step 2 runs `git ls-remote --heads`: exit code 0 yields the parsed branch
list, a nonzero exit yields `[]` silently, and a raised exception is logged
yellow before returning `[]`. -/
def get_available_branches (repo_url : String) (w : DiscoveryWorld) :
    List String × List Event :=
  let step1 : Option (List String) × List Event :=
    match githubApiUrl repo_url with
    | none => (none, [])
    | some api_url =>
      match w.http with
      | .exn e =>
        (none, [.httpGet api_url,
                .print 3 ("Warning: Could not fetch branches from " ++ repo_url ++ ": " ++ e)])
      | .resp status j =>
        if status = 200 then
          match j with
          | .ok names => (some names, [.httpGet api_url])
          | .err e =>
            (none, [.httpGet api_url,
                    .print 3 ("Warning: Could not fetch branches from " ++ repo_url ++ ": " ++ e)])
        else (none, [.httpGet api_url])
  match step1 with
  | (some branches, tr) => (branches, tr)
  | (none, tr) =>
    match w.ls with
    | .exn e =>
      ([], tr ++ [.gitLsRemote repo_url,
                  .print 3 ("Warning: Could not fetch branches using git ls-remote: " ++ e)])
    | .done rc out =>
      if rc = 0 then (parseLsRemote out, tr ++ [.gitLsRemote repo_url])
      else ([], tr ++ [.gitLsRemote repo_url])

/-- `validate_branch` (lines 72-86): accept silently when the candidate is in
a non-empty discovered set; reject with a red error and a yellow
comma-separated listing when it is not; accept with a yellow warning when
discovery returned the empty list. -/
def validate_branch (repo_url branch : String) (w : DiscoveryWorld) :
    Bool × List Event :=
  let r := get_available_branches repo_url w
  if r.1 ≠ [] then
    if branch ∈ r.1 then (true, r.2)
    else
      (false, r.2 ++
        [.print 1 ("Error: Branch \x27" ++ branch ++ "\x27 not found in repository " ++ repo_url),
         .print 3 ("Available branches: " ++ pyJoin ", " r.1)])
  else
    (true, r.2 ++
      [.print 3 ("Warning: Could not validate branch \x27" ++ branch ++
                 "\x27 - proceeding anyway")])

/-! ### Bench initializer -/

/-- What `os.path.exists(args.bench_name)` found at that path: any kind of
entry (the check never asks for directory-ness). -/
inductive PathKind
  | file
  | dir
  | symlink
  | other
deriving DecidableEq, Repr

/-- The external world seen by the bench initializer: the entry at
`args.bench_name` if any, and the result of the `bench init` shell command
(return code and captured stderr). -/
structure InitWorld where
  pathEntry : Option PathKind
  initReturncode : Int
  initStderr : String
deriving DecidableEq, Repr

/-- Lines 200-211: the single shell string handed to `/bin/bash -i -c`.
Optional `nvm use <node>;` prefix, optional inline `PYENV_VERSION=<py> `,
then `bench init --skip-redis-config-generation`, `--verbose ` when verbose
(a lone space otherwise), the repo/branch/apps-json flags, and the bench
directory name as the final positional argument. -/
def init_command (args : Options) : String :=
  (match args.node_version with
   | some nv => if nv != "" then "nvm use " ++ nv ++ ";" else ""
   | none => "")
  ++ (match args.py_version with
      | some pv => if pv != "" then "PYENV_VERSION=" ++ pv ++ " " else ""
      | none => "")
  ++ "bench init "
  ++ "--skip-redis-config-generation "
  ++ (if args.verbose then "--verbose " else " ")
  ++ ("--frappe-path=" ++ args.frappe_repo ++ " ")
  ++ ("--frappe-branch=" ++ args.frappe_branch ++ " ")
  ++ ("--apps_path=" ++ args.apps_json ++ " ")
  ++ args.bench_name

/-- Lines 196-198: the child environment gains `PYENV_VERSION` when
`py_version` is truthy. -/
def init_env_pyenv (args : Options) : Option String :=
  if optTruthy args.py_version then args.py_version else none

/-- `init_bench_if_not_exist` (lines 190-283).  If `os.path.exists` reports
any entry at the bench name, log yellow and return.  Otherwise run the init
command under bash; on a nonzero exit log the captured stderr red (plus the
`InvalidRemoteException` hints when that substring occurs) and return; on
success write the global config keys in source order, each announced with a
yellow line (`db_type` only when truthy; `developer_mode` via `-gp`).  The
`except subprocess.CalledProcessError` handler (line 282) is unreachable:
neither `subprocess.run` without `check=True` nor `subprocess.call` raises it. -/
def init_bench_if_not_exist (args : Options) (w : InitWorld) : List Event :=
  if w.pathEntry.isSome then
    [.print 3 "Bench already exists. Only site will be created"]
  else
    let pre : List Event :=
      [.print 2 ("Initializing bench with Frappe branch: " ++ args.frappe_branch),
       .runShell (init_command args)]
    if w.initReturncode ≠ 0 then
      pre ++ [.print 1 "Error during bench initialization:",
              .print 1 w.initStderr]
          ++ (if strContainsSub w.initStderr "InvalidRemoteException" then
                [.print 1 "This error usually means the specified branch doesn\x27t exist.",
                 .print 3 "Use --list-branches to see available branches."]
              else [])
    else
      pre ++ [.print 2 "Configuring Bench ...",
              .print 3 "Set db_host"]
          ++ (if args.db_type != "" then
                [.print 3 ("Setting db_type to " ++ args.db_type),
                 .call ["bench", "set-config", "-g", "db_type", args.db_type] args.bench_name]
              else [])
          ++ [.print 3 "Set redis_cache to redis://redis-cache:6379",
              .call ["bench", "set-config", "-g", "redis_cache", "redis://redis-cache:6379"]
                args.bench_name,
              .print 3 "Set redis_queue to redis://redis-queue:6379",
              .call ["bench", "set-config", "-g", "redis_queue", "redis://redis-queue:6379"]
                args.bench_name,
              .print 3 "Set redis_socketio to redis://redis-queue:6379 for backward compatibility",
              .call ["bench", "set-config", "-g", "redis_socketio", "redis://redis-queue:6379"]
                args.bench_name,
              .print 3 "Set developer_mode",
              .call ["bench", "set-config", "-gp", "developer_mode", "1"] args.bench_name]

/-! ### Site creator and driver -/

/-- The external world seen by the site creator: the result of
`os.listdir(f"{os.getcwd()}/{args.bench_name}/apps")` (line 320), `none` when
the call raises (missing directory). -/
structure SiteWorld where
  appsListing : Option (List String)
deriving DecidableEq, Repr

/-- Lines 287-318: the `bench new-site` argument list before the
`--install-app` flags, chosen by `db_type`. -/
def new_site_base (args : Options) : List String :=
  if args.db_type = "mariadb" then
    ["bench", "new-site",
     "--db-root-username=root",
     "--db-host=mariadb",
     "--db-type=" ++ args.db_type,
     "--mariadb-user-host-login-scope=%",
     "--db-root-password=123",
     "--admin-password=" ++ args.admin_password]
  else
    ["bench", "new-site",
     "--db-root-username=postgres",
     "--db-host=postgresql",
     "--db-type=" ++ args.db_type,
     "--db-root-password=123",
     "--admin-password=" ++ args.admin_password]

/-- The value written to the global `db_host` key (lines 289-292, 306-309). -/
def db_host_value (args : Options) : String :=
  if args.db_type = "mariadb" then "mariadb" else "postgresql"

/-- `create_site_in_bench` (lines 286-329).  Write `db_host` (after a yellow
`Set db_host` line, for either backend), then list `<bench_name>/apps` —
a failed `os.listdir` propagates as an uncaught exception — remove `frappe`
(`list.remove` raises `ValueError` when absent), append one
`--install-app=<app>` per remaining name and the site name last, and invoke
the command inside the bench directory. -/
def create_site_in_bench (args : Options) (w : SiteWorld) : List Event × Outcome :=
  let pre : List Event :=
    [.print 3 "Set db_host",
     .call ["bench", "set-config", "-g", "db_host", db_host_value args] args.bench_name]
  match w.appsListing with
  | none => (pre, .raised "FileNotFoundError: os.listdir")
  | some apps =>
    if "frappe" ∈ apps then
      let cmd := new_site_base args
        ++ (apps.erase "frappe").map (fun a => "--install-app=" ++ a)
        ++ [args.site_name]
      (pre ++ [.print 2 ("Creating Site " ++ args.site_name ++ " ..."),
               .call cmd args.bench_name],
       .normal)
    else (pre, .raised "ValueError: list.remove(x): x not in list")

/-- `main` (lines 89-99): validate the branch; on rejection print the red
remediation hint and return (exit 0); otherwise run the initializer then the
site creator. -/
def main_run (args : Options) (dw : DiscoveryWorld) (iw : InitWorld) (sw : SiteWorld) :
    List Event × Outcome :=
  let v := validate_branch args.frappe_repo args.frappe_branch dw
  if v.1 then
    let site := create_site_in_bench args sw
    (v.2 ++ init_bench_if_not_exist args iw ++ site.1, site.2)
  else
    (v.2 ++ [.print 1 "Please specify a valid branch using --frappe-branch"], .normal)

/-- The `__main__` driver (lines 332-347): with `--list-branches`, print the
green fetching line, run discovery once, and either list the branches sorted
ascending under a green header (each line yellow, prefixed `  - `) or print a
red error when the list is empty; otherwise run `main`.  Argument-parser
failures happen before this point and are outside the model. -/
def program (args : Options) (dw : DiscoveryWorld) (iw : InitWorld) (sw : SiteWorld) :
    List Event × Outcome :=
  if args.list_branches then
    let r := get_available_branches args.frappe_repo dw
    (.print 2 ("Fetching available branches from " ++ args.frappe_repo ++ "...") ::
      (r.2 ++
        (if r.1 ≠ [] then
          .print 2 "Available branches:" ::
            (pySorted r.1).map (fun b => .print 3 ("  - " ++ b))
        else [.print 1 "Could not fetch branches. Please check the repository URL."])),
     .normal)
  else main_run args dw iw sw

/-! ### Event classifiers -/

/-- Recognizes the `bench set-config` subprocess invocations. -/
def isSetConfigCall : Event → Bool
  | .call ("bench" :: "set-config" :: _) _ => true
  | _ => false

/-- Recognizes the yellow (level 3) log lines. -/
def isYellowPrint : Event → Bool
  | .print 3 _ => true
  | _ => false

/-- Recognizes any subprocess run by the bench initializer or the site
creator (the bash-wrapped `bench init` and every `subprocess.call`); branch
discovery only ever emits `httpGet`, `gitLsRemote` and `print`. -/
def isBenchSubprocess : Event → Bool
  | .runShell _ => true
  | .call _ _ => true
  | _ => false

/-- Recognizes HTTP requests. -/
def isHttpGet : Event → Bool
  | .httpGet _ => true
  | _ => false

/-- Recognizes the yellow warning the GitHub-API step prints for `url`
(line 47): a level-3 line beginning `Warning: Could not fetch branches
from <url>`.  The fallback warning of line 67 says `... using git
ls-remote: ...` instead, so the two are distinguishable for every url. -/
def isApiWarning (url : String) : Event → Bool
  | .print lvl msg =>
    lvl == 3 &&
      pyStartsWith msg ("Warning: Could not fetch branches from " ++ url)
  | _ => false

/-! ### Concrete records used in witnesses and counterexamples -/

/-- Options record with the mariadb backend selected. -/
def mariadbOptions : Options := { defaultOptions with db_type := "mariadb" }

/-- Options record with interpreter shims and verbose output. -/
def verboseOptions : Options := { defaultOptions with
  py_version := some "3.11"
  node_version := some "18"
  verbose := true }

/-- Options record asking for the branch listing. -/
def listBranchesOptions : Options := { defaultOptions with list_branches := true }

/-- A discovery world where the GitHub API answers 200 with branches
`["version-12", "main"]`. -/
def apiOkWorld : DiscoveryWorld :=
  ⟨.resp 200 (.ok ["version-12", "main"]), .done 0 ""⟩

/-- A discovery world where the GitHub API request raises a timeout and the
`git ls-remote` fallback succeeds with one head. -/
def apiExnWorld : DiscoveryWorld :=
  ⟨.exn "ReadTimeout", .done 0 "abc123\trefs/heads/main\n"⟩

/-! ### Helper lemmas -/

theorem pyCharListLe_total : ∀ as bs, pyCharListLe as bs = true ∨ pyCharListLe bs as = true
  | [], _ => Or.inl rfl
  | _ :: _, [] => Or.inr rfl
  | a :: as, b :: bs => by
    by_cases hab : a.val.toNat < b.val.toNat
    · exact Or.inl (by simp [pyCharListLe, hab])
    · by_cases hba : b.val.toNat < a.val.toNat
      · exact Or.inr (by simp [pyCharListLe, hba])
      · rcases pyCharListLe_total as bs with ih | ih
        · exact Or.inl (by simp [pyCharListLe, hab, hba, ih])
        · exact Or.inr (by simp [pyCharListLe, hab, hba, ih])

theorem pyCharListLe_trans : ∀ as bs cs, pyCharListLe as bs = true →
    pyCharListLe bs cs = true → pyCharListLe as cs = true
  | [], _, _, _, _ => rfl
  | _ :: _, [], _, h, _ => by simp [pyCharListLe] at h
  | _ :: _, _ :: _, [], _, h => by simp [pyCharListLe] at h
  | a :: as, b :: bs, c :: cs, h1, h2 => by
    simp only [pyCharListLe] at h1 h2 ⊢
    by_cases hab : a.val.toNat < b.val.toNat
    · by_cases hbc : b.val.toNat < c.val.toNat
      · simp [show a.val.toNat < c.val.toNat from by omega]
      · by_cases hcb : c.val.toNat < b.val.toNat
        · simp [hbc, hcb] at h2
        · simp [show a.val.toNat < c.val.toNat from by omega]
    · by_cases hba : b.val.toNat < a.val.toNat
      · simp [hab, hba] at h1
      · by_cases hbc : b.val.toNat < c.val.toNat
        · simp [show a.val.toNat < c.val.toNat from by omega]
        · by_cases hcb : c.val.toNat < b.val.toNat
          · simp [hbc, hcb] at h2
          · have hac : ¬ a.val.toNat < c.val.toNat := by omega
            have hca : ¬ c.val.toNat < a.val.toNat := by omega
            simp only [hab, hba, hbc, hcb, if_neg, if_false] at h1 h2
            simp only [hac, hca, if_neg, if_false]
            exact pyCharListLe_trans as bs cs h1 h2

instance : IsTotal String pyLe := ⟨fun a b => pyCharListLe_total a.data b.data⟩

instance : IsTrans String pyLe := ⟨fun a b c => pyCharListLe_trans a.data b.data c.data⟩

theorem pySorted_sorted (l : List String) : List.Sorted pyLe (pySorted l) :=
  List.sorted_insertionSort pyLe l

theorem pySorted_perm (l : List String) : (pySorted l).Perm l :=
  List.perm_insertionSort pyLe l

theorem isPrefixOf_append_right {l s : List Char} (t : List Char)
    (h : l.isPrefixOf s = true) : l.isPrefixOf (s ++ t) = true := by
  rw [ List.isPrefixOf_iff_prefix] at h ⊢
  exact h.trans ⟨t, rfl⟩

theorem pyStartsWith_append_right (s t pre : String) (h : pyStartsWith s pre = true) :
    pyStartsWith (s ++ t) pre = true := by
  unfold pyStartsWith at h ⊢
  rw [String.data_append]
  exact isPrefixOf_append_right t.data h

theorem containsList_append_right (pat s t : List Char)
    (h : containsList pat s = true) : containsList pat (s ++ t) = true := by
  induction s with
  | nil =>
    have hp : pat = [] := by simpa [containsList] using h
    subst hp
    cases t with
    | nil => rfl
    | cons c cs => simp [containsList, List.isPrefixOf]
  | cons c cs ih =>
    simp only [containsList, Bool.or_eq_true] at h
    rcases h with h | h
    · simp only [List.cons_append, containsList, Bool.or_eq_true]
      exact Or.inl (isPrefixOf_append_right t h)
    · simp only [List.cons_append, containsList, Bool.or_eq_true]
      exact Or.inr (ih h)

theorem strContainsSub_append_right (s t pat : String)
    (h : strContainsSub s pat = true) : strContainsSub (s ++ t) pat = true := by
  unfold strContainsSub at h ⊢
  rw [String.data_append]
  exact containsList_append_right _ _ _ h

theorem isPrefixOf_ne_head (p : List Char) (c d : Char) (x y : List Char)
    (hcd : (c == d) = false) :
    ((p ++ c :: x).isPrefixOf (p ++ d :: y)) = false := by
  induction p with
  | nil => simp [List.isPrefixOf, hcd]
  | cons a p ih => simp [List.isPrefixOf, ih]

theorem pyStartsWith_self (s : String) : pyStartsWith s s = true := by
  unfold pyStartsWith
  rw [ List.isPrefixOf_iff_prefix]

theorem pyStartsWith_from_warning (url e : String) :
    pyStartsWith ("Warning: Could not fetch branches from " ++ url ++ ": " ++ e)
      ("Warning: Could not fetch branches from " ++ url) = true := by
  apply pyStartsWith_append_right
  apply pyStartsWith_append_right
  exact pyStartsWith_self _

theorem pyStartsWith_ls_warning (url e : String) :
    pyStartsWith ("Warning: Could not fetch branches using git ls-remote: " ++ e)
      ("Warning: Could not fetch branches from " ++ url) = false := by
  unfold pyStartsWith
  have e1 : ("Warning: Could not fetch branches from " ++ url).data =
      "Warning: Could not fetch branches ".data ++
        ('f' :: ("rom ".data ++ url.data)) := by
    rw [String.data_append,
      show "Warning: Could not fetch branches from ".data =
        "Warning: Could not fetch branches ".data ++ ('f' :: "rom ".data) from by decide]
    simp
  have e2 : ("Warning: Could not fetch branches using git ls-remote: " ++ e).data =
      "Warning: Could not fetch branches ".data ++
        ('u' :: ("sing git ls-remote: ".data ++ e.data)) := by
    rw [String.data_append,
      show "Warning: Could not fetch branches using git ls-remote: ".data =
        "Warning: Could not fetch branches ".data ++
          ('u' :: "sing git ls-remote: ".data) from by decide]
    simp
  rw [e1, e2]
  exact isPrefixOf_ne_head _ 'f' 'u' _ _ (by decide)

/-! ### Claims -/

/-- C2: for every options record, the `bench new-site` argument list is
determined by `db_type`: the mariadb shape when `db_type = "mariadb"` (with
`--mariadb-user-host-login-scope=%` and no postgres-specific flag), the
postgres shape otherwise (no mariadb-specific flag), each preceded by a
global `set-config` of `db_host` to `mariadb` resp. `postgresql`. -/
theorem c2_new_site_command_shape (args : Options) (sw : SiteWorld) :
    (args.db_type = "mariadb" →
      new_site_base args =
        ["bench", "new-site", "--db-root-username=root", "--db-host=mariadb",
         "--db-type=mariadb", "--mariadb-user-host-login-scope=%",
         "--db-root-password=123", "--admin-password=" ++ args.admin_password]) ∧
    (args.db_type ≠ "mariadb" →
      new_site_base args =
        ["bench", "new-site", "--db-root-username=postgres", "--db-host=postgresql",
         "--db-type=" ++ args.db_type, "--db-root-password=123",
         "--admin-password=" ++ args.admin_password]) ∧
    (args.db_type = "mariadb" → db_host_value args = "mariadb") ∧
    (args.db_type ≠ "mariadb" → db_host_value args = "postgresql") ∧
    (create_site_in_bench args sw).1.take 2 =
      [Event.print 3 "Set db_host",
       Event.call ["bench", "set-config", "-g", "db_host", db_host_value args]
         args.bench_name] := by
  refine ⟨fun h => by simp [new_site_base, h],
          fun h => by simp [new_site_base, h],
          fun h => by simp [db_host_value, h],
          fun h => by simp [db_host_value, h],
          ?_⟩
  rcases sw with ⟨_ | apps⟩
  · rfl
  · by_cases hf : "frappe" ∈ apps <;> simp [create_site_in_bench, hf]

theorem c2_witness :
    (mariadbOptions.db_type = "mariadb" ∧
      new_site_base mariadbOptions =
        ["bench", "new-site", "--db-root-username=root", "--db-host=mariadb",
         "--db-type=mariadb", "--mariadb-user-host-login-scope=%",
         "--db-root-password=123",
         "--admin-password=" ++
           mariadbOptions.admin_password]) ∧
    (defaultOptions.db_type ≠ "mariadb" ∧
      new_site_base defaultOptions =
        ["bench", "new-site", "--db-root-username=postgres", "--db-host=postgresql",
         "--db-type=" ++ defaultOptions.db_type, "--db-root-password=123",
         "--admin-password=" ++ defaultOptions.admin_password]) :=
  ⟨⟨rfl, (c2_new_site_command_shape mariadbOptions ⟨none⟩).1 rfl⟩,
   ⟨by decide, (c2_new_site_command_shape defaultOptions ⟨none⟩).2.1 (by decide)⟩⟩

/-- C5: the `--install-app` flags appended to the new-site command are exactly
the child names of `<bench_name>/apps` minus `frappe` (the removal fails hard
when `frappe` is absent), and the site name is the final positional argument
after all of them. -/
theorem c5_install_app_flags (args : Options) (apps : List String) :
    ("frappe" ∈ apps →
      create_site_in_bench args ⟨some apps⟩ =
        ([Event.print 3 "Set db_host",
          Event.call ["bench", "set-config", "-g", "db_host", db_host_value args]
            args.bench_name,
          Event.print 2 ("Creating Site " ++ args.site_name ++ " ..."),
          Event.call
            (new_site_base args
              ++ (apps.erase "frappe").map (fun a => "--install-app=" ++ a)
              ++ [args.site_name])
            args.bench_name],
         Outcome.normal)) ∧
    (apps.Nodup → apps.erase "frappe" = apps.filter (fun a => a != "frappe")) ∧
    ("frappe" ∉ apps →
      (create_site_in_bench args ⟨some apps⟩).2 =
        Outcome.raised "ValueError: list.remove(x): x not in list") := by
  refine ⟨fun h => by simp [create_site_in_bench, h],
          fun h => h.erase_eq_filter "frappe",
          fun h => by simp [create_site_in_bench, h]⟩

theorem c5_witness :
    ("frappe" ∈ ["frappe", "erpnext", "hrms"] ∧
      create_site_in_bench defaultOptions ⟨some ["frappe", "erpnext", "hrms"]⟩ =
        ([Event.print 3 "Set db_host",
          Event.call ["bench", "set-config", "-g", "db_host", "postgresql"] "frappe-bench",
          Event.print 2 "Creating Site development.localhost ...",
          Event.call
            ["bench", "new-site", "--db-root-username=postgres", "--db-host=postgresql",
             "--db-type=postgres", "--db-root-password=123", "--admin-password=123",
             "--install-app=erpnext", "--install-app=hrms", "development.localhost"]
            "frappe-bench"],
         Outcome.normal)) ∧
    ("frappe" ∉ ["erpnext"] ∧
      (create_site_in_bench defaultOptions ⟨some ["erpnext"]⟩).2 =
        Outcome.raised "ValueError: list.remove(x): x not in list") := by
  constructor
  · refine ⟨by decide, ?_⟩
    have h := (c5_install_app_flags defaultOptions ["frappe", "erpnext", "hrms"]).1 (by decide)
    exact h.trans (by decide)
  · exact ⟨by decide, (c5_install_app_flags defaultOptions ["erpnext"]).2.2 (by decide)⟩

/-- C6: with `py_version = "3.11"`, `node_version = "18"` and verbose on, the
shell command handed to `/bin/bash -i -c` begins with `nvm use 18;`, contains
`PYENV_VERSION=3.11 bench init --skip-redis-config-generation --verbose`, and
continues with `--frappe-path`, `--frappe-branch`, `--apps_path` and the
bench directory name as the final positional argument. -/
theorem c6_init_command_shape (args : Options)
    (hp : args.py_version = some "3.11") (hn : args.node_version = some "18")
    (hv : args.verbose = true) :
    init_command args =
      "nvm use 18;PYENV_VERSION=3.11 bench init --skip-redis-config-generation --verbose "
      ++ ("--frappe-path=" ++ args.frappe_repo ++ " ")
      ++ ("--frappe-branch=" ++ args.frappe_branch ++ " ")
      ++ ("--apps_path=" ++ args.apps_json ++ " ")
      ++ args.bench_name ∧
    pyStartsWith (init_command args) "nvm use 18;" = true ∧
    strContainsSub (init_command args)
      "PYENV_VERSION=3.11 bench init --skip-redis-config-generation --verbose" = true := by
  obtain ⟨aj, bn, sn, fr, fb, pv, nv, vb, ap, dt, lb⟩ := args
  simp only at hp hn hv
  subst hp; subst hn; subst hv
  have he : init_command
      { apps_json := aj, bench_name := bn, site_name := sn, frappe_repo := fr,
        frappe_branch := fb, py_version := some "3.11", node_version := some "18",
        verbose := true, admin_password := ap, db_type := dt, list_branches := lb } =
      "nvm use 18;PYENV_VERSION=3.11 bench init --skip-redis-config-generation --verbose "
      ++ ("--frappe-path=" ++ fr ++ " ")
      ++ ("--frappe-branch=" ++ fb ++ " ")
      ++ ("--apps_path=" ++ aj ++ " ")
      ++ bn := rfl
  refine ⟨he, ?_, ?_⟩
  · rw [he]
    apply pyStartsWith_append_right
    apply pyStartsWith_append_right
    apply pyStartsWith_append_right
    apply pyStartsWith_append_right
    decide
  · rw [he]
    apply strContainsSub_append_right
    apply strContainsSub_append_right
    apply strContainsSub_append_right
    apply strContainsSub_append_right
    decide

theorem c6_witness :
    (verboseOptions.py_version = some "3.11" ∧
     verboseOptions.node_version = some "18" ∧
     verboseOptions.verbose = true) ∧
    init_command verboseOptions =
      "nvm use 18;PYENV_VERSION=3.11 bench init --skip-redis-config-generation --verbose --frappe-path=https://github.com/sin-ev/backend --frappe-branch=version-12 --apps_path=apps-example.json frappe-bench" ∧
    pyStartsWith
      (init_command verboseOptions) "nvm use 18;" = true ∧
    strContainsSub
      (init_command verboseOptions)
      "PYENV_VERSION=3.11 bench init --skip-redis-config-generation --verbose" = true := by
  have h := c6_init_command_shape verboseOptions rfl rfl rfl
  exact ⟨⟨rfl, rfl, rfl⟩, h.1.trans (by decide), h.2.1, h.2.2⟩

/-- C9: for every repository URL not beginning with `https://github.com/`,
branch discovery issues no HTTP request and falls through directly to
`git ls-remote --heads <url>` (the very first event of its trace). -/
theorem c9_non_github_no_http (url : String) (w : DiscoveryWorld)
    (h : pyStartsWith url "https://github.com/" = false) :
    ((get_available_branches url w).2).filter isHttpGet = [] ∧
    ((get_available_branches url w).2).head? = some (Event.gitLsRemote url) := by
  have hapi : githubApiUrl url = none := by simp [githubApiUrl, h]
  rcases w with ⟨http, ls⟩
  rcases ls with e | ⟨rc, out⟩
  · simp [get_available_branches, hapi, isHttpGet]
  · by_cases hrc : rc = 0 <;> simp [get_available_branches, hapi, hrc, isHttpGet]

theorem c9_witness :
    pyStartsWith "https://gitlab.com/frappe/frappe" "https://github.com/" = false ∧
    ((get_available_branches "https://gitlab.com/frappe/frappe" apiOkWorld).2).filter
      isHttpGet = [] ∧
    ((get_available_branches "https://gitlab.com/frappe/frappe" apiOkWorld).2).head? =
      some (Event.gitLsRemote "https://gitlab.com/frappe/frappe") := by
  have h := c9_non_github_no_http "https://gitlab.com/frappe/frappe" apiOkWorld (by decide)
  exact ⟨by decide, h.1, h.2⟩

/-- C10: the pre-existence check of the bench initializer tests mere path
existence: whatever kind of entry sits at `bench_name` (a regular file
included), the initializer emits only the yellow `Bench already exists`
message — no `bench init`, no config write — and the driver still proceeds to
site creation inside that name. -/
theorem c10_path_existence_check (args : Options) (dw : DiscoveryWorld)
    (iw : InitWorld) (sw : SiteWorld) (k : PathKind) (h : iw.pathEntry = some k) :
    init_bench_if_not_exist args iw =
      [Event.print 3 "Bench already exists. Only site will be created"] ∧
    ((validate_branch args.frappe_repo args.frappe_branch dw).1 = true →
      args.list_branches = false →
      program args dw iw sw =
        ((validate_branch args.frappe_repo args.frappe_branch dw).2
          ++ [Event.print 3 "Bench already exists. Only site will be created"]
          ++ (create_site_in_bench args sw).1,
         (create_site_in_bench args sw).2)) := by
  have h1 : init_bench_if_not_exist args iw =
      [Event.print 3 "Bench already exists. Only site will be created"] := by
    simp [init_bench_if_not_exist, h]
  refine ⟨h1, fun hv hl => ?_⟩
  simp [program, hl, main_run, hv, h1]

theorem c10_witness :
    ((⟨some PathKind.file, 0, ""⟩ : InitWorld).pathEntry = some PathKind.file ∧
     (validate_branch defaultOptions.frappe_repo defaultOptions.frappe_branch
        apiOkWorld).1 = true ∧
     defaultOptions.list_branches = false) ∧
    init_bench_if_not_exist defaultOptions ⟨some PathKind.file, 0, ""⟩ =
      [Event.print 3 "Bench already exists. Only site will be created"] ∧
    program defaultOptions apiOkWorld ⟨some PathKind.file, 0, ""⟩ ⟨some ["frappe"]⟩ =
      ((validate_branch defaultOptions.frappe_repo defaultOptions.frappe_branch
          apiOkWorld).2
        ++ [Event.print 3 "Bench already exists. Only site will be created"]
        ++ (create_site_in_bench defaultOptions ⟨some ["frappe"]⟩).1,
       (create_site_in_bench defaultOptions ⟨some ["frappe"]⟩).2) := by
  have h := c10_path_existence_check defaultOptions apiOkWorld
    ⟨some PathKind.file, 0, ""⟩ ⟨some ["frappe"]⟩ PathKind.file rfl
  exact ⟨⟨rfl, by decide, rfl⟩, h.1, h.2 (by decide) rfl⟩

/-- C3: the branch validator accepts exactly when the discovered branch set
is empty (with a yellow skipped-validation warning) or contains the
candidate; when the set is non-empty and the candidate absent it rejects
with a red error naming the branch and a yellow comma-separated listing of
the available branches. -/
theorem c3_validate_branch_policy (url branch : String) (w : DiscoveryWorld) :
    ((validate_branch url branch w).1 = true ↔
      (get_available_branches url w).1 = [] ∨
        branch ∈ (get_available_branches url w).1) ∧
    ((get_available_branches url w).1 = [] →
      validate_branch url branch w =
        (true, (get_available_branches url w).2 ++
          [Event.print 3 ("Warning: Could not validate branch \x27" ++ branch ++
            "\x27 - proceeding anyway")])) ∧
    ((get_available_branches url w).1 ≠ [] →
      branch ∉ (get_available_branches url w).1 →
      validate_branch url branch w =
        (false, (get_available_branches url w).2 ++
          [Event.print 1 ("Error: Branch \x27" ++ branch ++
             "\x27 not found in repository " ++ url),
           Event.print 3 ("Available branches: " ++
             pyJoin ", " (get_available_branches url w).1)])) ∧
    ((get_available_branches url w).1 ≠ [] →
      branch ∈ (get_available_branches url w).1 →
      validate_branch url branch w = (true, (get_available_branches url w).2)) := by
  refine ⟨?_, fun he => ?_, fun hne hnm => ?_, fun hne hm => ?_⟩
  · by_cases h : (get_available_branches url w).1 = []
    · simp [validate_branch, h]
    · by_cases hb : branch ∈ (get_available_branches url w).1 <;>
        simp [validate_branch, h, hb]
  · simp [validate_branch, he]
  · simp [validate_branch, hne, hnm]
  · simp [validate_branch, hne, hm]

theorem c3_witness :
    ((get_available_branches "https://github.com/sin-ev/backend" apiOkWorld).1 ≠ [] ∧
     "nope" ∉ (get_available_branches "https://github.com/sin-ev/backend" apiOkWorld).1) ∧
    validate_branch "https://github.com/sin-ev/backend" "nope" apiOkWorld =
      (false, (get_available_branches "https://github.com/sin-ev/backend" apiOkWorld).2 ++
        [Event.print 1 ("Error: Branch \x27" ++ "nope" ++
           "\x27 not found in repository " ++ "https://github.com/sin-ev/backend"),
         Event.print 3 ("Available branches: " ++
           pyJoin ", " (get_available_branches "https://github.com/sin-ev/backend"
             apiOkWorld).1)]) := by
  refine ⟨⟨by decide, by decide⟩, ?_⟩
  exact (c3_validate_branch_policy "https://github.com/sin-ev/backend" "nope"
    apiOkWorld).2.2.1 (by decide) (by decide)

theorem filter_isBench_prints (l : List String) (f : String → String) :
    (l.map (fun b => Event.print 3 (f b))).filter isBenchSubprocess = [] := by
  induction l with
  | nil => rfl
  | cons a l ih => simp [isBenchSubprocess, ih]

theorem ga_no_subprocess (url : String) (w : DiscoveryWorld) :
    ((get_available_branches url w).2).filter isBenchSubprocess = [] := by
  rcases w with ⟨http, ls⟩
  rcases hapi : githubApiUrl url with _ | api
  · rcases ls with e | ⟨rc, out⟩
    · simp [get_available_branches, hapi, isBenchSubprocess]
    · by_cases hrc : rc = 0 <;> simp [get_available_branches, hapi, hrc, isBenchSubprocess]
  · rcases http with e | ⟨st, j⟩
    · rcases ls with e2 | ⟨rc, out⟩
      · simp [get_available_branches, hapi, isBenchSubprocess]
      · by_cases hrc : rc = 0 <;> simp [get_available_branches, hapi, hrc, isBenchSubprocess]
    · by_cases hst : st = 200
      · rcases j with names | e3
        · simp [get_available_branches, hapi, hst, isBenchSubprocess]
        · rcases ls with e2 | ⟨rc, out⟩
          · simp [get_available_branches, hapi, hst, isBenchSubprocess]
          · by_cases hrc : rc = 0 <;>
              simp [get_available_branches, hapi, hst, hrc, isBenchSubprocess]
      · rcases ls with e2 | ⟨rc, out⟩
        · simp [get_available_branches, hapi, hst, isBenchSubprocess]
        · by_cases hrc : rc = 0 <;>
            simp [get_available_branches, hapi, hst, hrc, isBenchSubprocess]

/-- C4 (amended): on every successful `bench init`, the initializer invokes
`bench set-config` globally once per configured pair — five times when
`db_type` is truthy (as under the defaults), four otherwise — in the fixed
order `db_type` (when truthy), `redis_cache`, `redis_queue`, `redis_socketio`
(deliberately the queue endpoint) and `developer_mode` via the parsed-value
`-gp` form, each write announced by a yellow log line. -/
theorem c4_config_writes (args : Options) (iw : InitWorld)
    (h1 : iw.pathEntry = none) (h2 : iw.initReturncode = 0) :
    (init_bench_if_not_exist args iw).filter isSetConfigCall =
      (if args.db_type != "" then
        [Event.call ["bench", "set-config", "-g", "db_type", args.db_type] args.bench_name]
      else [])
      ++ [Event.call ["bench", "set-config", "-g", "redis_cache", "redis://redis-cache:6379"]
            args.bench_name,
          Event.call ["bench", "set-config", "-g", "redis_queue", "redis://redis-queue:6379"]
            args.bench_name,
          Event.call ["bench", "set-config", "-g", "redis_socketio", "redis://redis-queue:6379"]
            args.bench_name,
          Event.call ["bench", "set-config", "-gp", "developer_mode", "1"] args.bench_name] ∧
    ((init_bench_if_not_exist args iw).filter isSetConfigCall).length =
      (if args.db_type != "" then 5 else 4) ∧
    (init_bench_if_not_exist args iw).filter
        (fun e => isYellowPrint e || isSetConfigCall e) =
      [Event.print 3 "Set db_host"]
      ++ (if args.db_type != "" then
            [Event.print 3 ("Setting db_type to " ++ args.db_type),
             Event.call ["bench", "set-config", "-g", "db_type", args.db_type] args.bench_name]
          else [])
      ++ [Event.print 3 "Set redis_cache to redis://redis-cache:6379",
          Event.call ["bench", "set-config", "-g", "redis_cache", "redis://redis-cache:6379"]
            args.bench_name,
          Event.print 3 "Set redis_queue to redis://redis-queue:6379",
          Event.call ["bench", "set-config", "-g", "redis_queue", "redis://redis-queue:6379"]
            args.bench_name,
          Event.print 3 "Set redis_socketio to redis://redis-queue:6379 for backward compatibility",
          Event.call ["bench", "set-config", "-g", "redis_socketio", "redis://redis-queue:6379"]
            args.bench_name,
          Event.print 3 "Set developer_mode",
          Event.call ["bench", "set-config", "-gp", "developer_mode", "1"] args.bench_name] := by
  rcases iw with ⟨pe, rc, se⟩
  simp only at h1 h2
  subst h1; subst h2
  by_cases hdt : args.db_type = ""
  · refine ⟨?_, ?_, ?_⟩ <;>
      simp [init_bench_if_not_exist, hdt, isSetConfigCall, isYellowPrint]
  · have hb : (args.db_type != "") = true := by simpa using hdt
    simp only [hb]
    refine ⟨?_, ?_, ?_⟩ <;>
      simp [init_bench_if_not_exist, hb, isSetConfigCall, isYellowPrint]

theorem c4_counterexample :
    defaultOptions.db_type ≠ "" ∧
    ((init_bench_if_not_exist defaultOptions ⟨none, 0, ""⟩).filter
      isSetConfigCall).length = 5 := by
  exact ⟨by decide, by decide⟩

theorem c4_witness :
    ((⟨none, 0, ""⟩ : InitWorld).pathEntry = none ∧
     (⟨none, 0, ""⟩ : InitWorld).initReturncode = 0) ∧
    (init_bench_if_not_exist defaultOptions ⟨none, 0, ""⟩).filter isSetConfigCall =
      [Event.call ["bench", "set-config", "-g", "db_type", "postgres"] "frappe-bench",
       Event.call ["bench", "set-config", "-g", "redis_cache", "redis://redis-cache:6379"]
         "frappe-bench",
       Event.call ["bench", "set-config", "-g", "redis_queue", "redis://redis-queue:6379"]
         "frappe-bench",
       Event.call ["bench", "set-config", "-g", "redis_socketio", "redis://redis-queue:6379"]
         "frappe-bench",
       Event.call ["bench", "set-config", "-gp", "developer_mode", "1"] "frappe-bench"] := by
  have h := (c4_config_writes defaultOptions ⟨none, 0, ""⟩ rfl rfl).1
  exact ⟨⟨rfl, rfl⟩, h.trans (by decide)⟩

/-- C1 (amended): on every run where `bench init` exits nonzero the
initializer logs the captured stderr in red (plus the
`InvalidRemoteException` hints when that substring is present) and writes no
configuration; the driver still calls the site creator, and the run ends
with exit code 0 exactly when the enumeration of `<bench_name>/apps`
succeeds and contains `frappe` — otherwise the uncaught exception makes the
exit nonzero. -/
theorem c1_init_failure (args : Options) (dw : DiscoveryWorld) (iw : InitWorld)
    (sw : SiteWorld) (hl : args.list_branches = false)
    (hv : (validate_branch args.frappe_repo args.frappe_branch dw).1 = true)
    (hp : iw.pathEntry = none) (hr : iw.initReturncode ≠ 0) :
    init_bench_if_not_exist args iw =
      [Event.print 2 ("Initializing bench with Frappe branch: " ++ args.frappe_branch),
       Event.runShell (init_command args),
       Event.print 1 "Error during bench initialization:",
       Event.print 1 iw.initStderr]
      ++ (if strContainsSub iw.initStderr "InvalidRemoteException" then
            [Event.print 1 "This error usually means the specified branch doesn\x27t exist.",
             Event.print 3 "Use --list-branches to see available branches."]
          else []) ∧
    (init_bench_if_not_exist args iw).filter isSetConfigCall = [] ∧
    program args dw iw sw =
      ((validate_branch args.frappe_repo args.frappe_branch dw).2
        ++ init_bench_if_not_exist args iw
        ++ (create_site_in_bench args sw).1,
       (create_site_in_bench args sw).2) ∧
    ((program args dw iw sw).2 = Outcome.normal ↔
      ∃ apps, sw.appsListing = some apps ∧ "frappe" ∈ apps) := by
  have he : init_bench_if_not_exist args iw =
      [Event.print 2 ("Initializing bench with Frappe branch: " ++ args.frappe_branch),
       Event.runShell (init_command args),
       Event.print 1 "Error during bench initialization:",
       Event.print 1 iw.initStderr]
      ++ (if strContainsSub iw.initStderr "InvalidRemoteException" then
            [Event.print 1 "This error usually means the specified branch doesn\x27t exist.",
             Event.print 3 "Use --list-branches to see available branches."]
          else []) := by
    simp [init_bench_if_not_exist, hp, hr]
  have hf : (init_bench_if_not_exist args iw).filter isSetConfigCall = [] := by
    rw [he]
    by_cases hs : strContainsSub iw.initStderr "InvalidRemoteException" <;>
      simp [hs, isSetConfigCall]
  have hprog : program args dw iw sw =
      ((validate_branch args.frappe_repo args.frappe_branch dw).2
        ++ init_bench_if_not_exist args iw
        ++ (create_site_in_bench args sw).1,
       (create_site_in_bench args sw).2) := by
    simp [program, hl, main_run, hv]
  refine ⟨he, hf, hprog, ?_⟩
  rw [hprog]
  rcases sw with ⟨_ | apps⟩
  · simp [create_site_in_bench]
  · by_cases hfm : "frappe" ∈ apps <;> simp [create_site_in_bench, hfm]

theorem c1_counterexample :
    defaultOptions.list_branches = false ∧
    ((⟨none, 1, "boom"⟩ : InitWorld).initReturncode ≠ 0) ∧
    (program defaultOptions apiOkWorld ⟨none, 1, "boom"⟩ ⟨none⟩).2 =
      Outcome.raised "FileNotFoundError: os.listdir" := by
  refine ⟨rfl, by decide, by decide⟩

theorem c1_witness :
    (defaultOptions.list_branches = false ∧
     (validate_branch defaultOptions.frappe_repo defaultOptions.frappe_branch
        apiOkWorld).1 = true ∧
     (⟨none, 1, "boom"⟩ : InitWorld).pathEntry = none ∧
     ((⟨none, 1, "boom"⟩ : InitWorld).initReturncode ≠ 0)) ∧
    init_bench_if_not_exist defaultOptions ⟨none, 1, "boom"⟩ =
      [Event.print 2 "Initializing bench with Frappe branch: version-12",
       Event.runShell (init_command defaultOptions),
       Event.print 1 "Error during bench initialization:",
       Event.print 1 "boom"] ∧
    (init_bench_if_not_exist defaultOptions ⟨none, 1, "boom"⟩).filter isSetConfigCall = [] ∧
    (program defaultOptions apiOkWorld ⟨none, 1, "boom"⟩
      ⟨some ["frappe", "erpnext"]⟩).2 = Outcome.normal := by
  have h := c1_init_failure defaultOptions apiOkWorld ⟨none, 1, "boom"⟩
    ⟨some ["frappe", "erpnext"]⟩ rfl (by decide) rfl (by decide)
  refine ⟨⟨rfl, by decide, rfl, by decide⟩, h.1.trans (by decide), h.2.1, ?_⟩
  exact h.2.2.2.mpr ⟨["frappe", "erpnext"], rfl, by decide⟩

/-- C8 (amended): the GitHub-API step of branch discovery logs the yellow
warning identifying the repository and the cause exactly when the step
raises an exception (network error, timeout, malformed JSON): in those cases
the warning directly follows the HTTP request and precedes the
`git ls-remote` fall-through, while a non-200 response falls through to
`git ls-remote` silently right after the request, and a non-GitHub URL or a
GitHub URL with fewer than two path segments falls through silently with no
request at all; the trace carries an API warning if and only if the API URL
was formed and the step raised. -/
theorem c8_api_failure_warnings (url : String) (w : DiscoveryWorld) :
    (∀ api e, githubApiUrl url = some api →
      (w.http = HttpOutcome.exn e ∨ w.http = HttpOutcome.resp 200 (JsonOutcome.err e)) →
      ((get_available_branches url w).2).take 2 =
        [Event.httpGet api,
         Event.print 3 ("Warning: Could not fetch branches from " ++ url ++ ": " ++ e)] ∧
      (((get_available_branches url w).2).drop 2).head? = some (Event.gitLsRemote url)) ∧
    (∀ api s j, githubApiUrl url = some api → w.http = HttpOutcome.resp s j → s ≠ 200 →
      ((get_available_branches url w).2).take 2 =
        [Event.httpGet api, Event.gitLsRemote url]) ∧
    (githubApiUrl url = none →
      ((get_available_branches url w).2).head? = some (Event.gitLsRemote url) ∧
      ((get_available_branches url w).2).filter isHttpGet = []) ∧
    (((get_available_branches url w).2).any (isApiWarning url) = true ↔
      (∃ api, githubApiUrl url = some api) ∧
        ((∃ e, w.http = HttpOutcome.exn e) ∨
         (∃ e, w.http = HttpOutcome.resp 200 (JsonOutcome.err e)))) := by
  rcases w with ⟨http, ls⟩
  refine ⟨?_, ?_, ?_, ?_⟩
  · intro api e hapi hx
    rcases hx with hx | hx <;> simp only at hx <;> subst hx <;>
    · rcases ls with e2 | ⟨rc, out⟩
      · simp [get_available_branches, hapi]
      · by_cases hrc : rc = 0 <;> simp [get_available_branches, hapi, hrc]
  · intro api s j hapi hw hs
    simp only at hw
    subst hw
    rcases ls with e2 | ⟨rc, out⟩
    · simp [get_available_branches, hapi, hs]
    · by_cases hrc : rc = 0 <;> simp [get_available_branches, hapi, hs, hrc]
  · intro hapi
    rcases ls with e2 | ⟨rc, out⟩
    · simp [get_available_branches, hapi, isHttpGet]
    · by_cases hrc : rc = 0 <;> simp [get_available_branches, hapi, hrc, isHttpGet]
  · rcases hapi : githubApiUrl url with _ | api
    · rcases ls with e2 | ⟨rc, out⟩
      · simp [get_available_branches, hapi, isApiWarning, pyStartsWith_ls_warning]
      · by_cases hrc : rc = 0 <;> simp [get_available_branches, hapi, hrc, isApiWarning]
    · rcases http with e | ⟨s, j⟩
      · rcases ls with e2 | ⟨rc, out⟩
        · simp [get_available_branches, hapi, isApiWarning,
            pyStartsWith_from_warning, pyStartsWith_ls_warning]
        · by_cases hrc : rc = 0 <;>
            simp [get_available_branches, hapi, hrc, isApiWarning,
              pyStartsWith_from_warning, pyStartsWith_ls_warning]
      · by_cases hs : s = 200
        · subst hs
          rcases j with names | e3
          · simp [get_available_branches, hapi, isApiWarning]
          · rcases ls with e2 | ⟨rc, out⟩
            · simp [get_available_branches, hapi, isApiWarning,
                pyStartsWith_from_warning, pyStartsWith_ls_warning]
            · by_cases hrc : rc = 0 <;>
                simp [get_available_branches, hapi, hrc, isApiWarning,
                  pyStartsWith_from_warning, pyStartsWith_ls_warning]
        · rcases ls with e2 | ⟨rc, out⟩
          · simp [get_available_branches, hapi, hs, isApiWarning,
              pyStartsWith_ls_warning]
          · by_cases hrc : rc = 0 <;>
              simp [get_available_branches, hapi, hs, hrc, isApiWarning,
                pyStartsWith_ls_warning]

theorem c8_counterexample :
    (pyStartsWith "https://gitlab.com/frappe/frappe" "https://github.com/" = false ∧
     (get_available_branches "https://gitlab.com/frappe/frappe" apiOkWorld).2 =
       [Event.gitLsRemote "https://gitlab.com/frappe/frappe"]) ∧
    (get_available_branches "https://github.com/onlyowner" apiOkWorld).2 =
      [Event.gitLsRemote "https://github.com/onlyowner"] ∧
    (get_available_branches "https://github.com/sin-ev/backend"
        ⟨HttpOutcome.resp 403 (JsonOutcome.err "rate limited"), LsOutcome.done 0 ""⟩).2 =
      [Event.httpGet "https://api.github.com/repos/sin-ev/backend/branches",
       Event.gitLsRemote "https://github.com/sin-ev/backend"] := by
  exact ⟨⟨by decide, by decide⟩, by decide, by decide⟩

theorem c8_witness :
    (githubApiUrl "https://github.com/sin-ev/backend" =
      some "https://api.github.com/repos/sin-ev/backend/branches" ∧
     (apiExnWorld.http = HttpOutcome.exn "ReadTimeout" ∨
      apiExnWorld.http = HttpOutcome.resp 200 (JsonOutcome.err "ReadTimeout"))) ∧
    ((get_available_branches "https://github.com/sin-ev/backend" apiExnWorld).2).take 2 =
      [Event.httpGet "https://api.github.com/repos/sin-ev/backend/branches",
       Event.print 3
         "Warning: Could not fetch branches from https://github.com/sin-ev/backend: ReadTimeout"] ∧
    (((get_available_branches "https://github.com/sin-ev/backend" apiExnWorld).2).drop 2).head? =
      some (Event.gitLsRemote "https://github.com/sin-ev/backend") ∧
    ((get_available_branches "https://gitlab.com/frappe/frappe" apiOkWorld).2).take 2 =
      [Event.gitLsRemote "https://gitlab.com/frappe/frappe"] ∧
    ((get_available_branches "https://github.com/sin-ev/backend" apiExnWorld).2).any
      (isApiWarning "https://github.com/sin-ev/backend") = true := by
  have h := c8_api_failure_warnings "https://github.com/sin-ev/backend" apiExnWorld
  have ha := h.1 "https://api.github.com/repos/sin-ev/backend/branches" "ReadTimeout"
    (by decide) (Or.inl rfl)
  refine ⟨⟨by decide, Or.inl rfl⟩, ha.1.trans (by decide), ha.2, by decide, ?_⟩
  exact h.2.2.2.mpr ⟨⟨"https://api.github.com/repos/sin-ev/backend/branches", by decide⟩,
    Or.inl ⟨"ReadTimeout", rfl⟩⟩

/-- C7: with `list_branches` set the program prints the green fetching
header, runs discovery once, then either lists each discovered branch as a
yellow `  - ` line in ascending sorted order under a green header or prints
a red error when the set is empty; neither the bench initializer nor the
site creator ever executes (the trace contains no subprocess of theirs). -/
theorem c7_list_branches_only_lists (args : Options) (dw : DiscoveryWorld)
    (iw : InitWorld) (sw : SiteWorld) (h : args.list_branches = true) :
    program args dw iw sw =
      (Event.print 2 ("Fetching available branches from " ++ args.frappe_repo ++ "...") ::
        ((get_available_branches args.frappe_repo dw).2 ++
          (if (get_available_branches args.frappe_repo dw).1 ≠ [] then
            Event.print 2 "Available branches:" ::
              (pySorted (get_available_branches args.frappe_repo dw).1).map
                (fun b => Event.print 3 ("  - " ++ b))
          else [Event.print 1 "Could not fetch branches. Please check the repository URL."])),
       Outcome.normal) ∧
    (program args dw iw sw).1.filter isBenchSubprocess = [] ∧
    List.Sorted pyLe (pySorted (get_available_branches args.frappe_repo dw).1) ∧
    (pySorted (get_available_branches args.frappe_repo dw).1).Perm
      (get_available_branches args.frappe_repo dw).1 := by
  have hp : program args dw iw sw =
      (Event.print 2 ("Fetching available branches from " ++ args.frappe_repo ++ "...") ::
        ((get_available_branches args.frappe_repo dw).2 ++
          (if (get_available_branches args.frappe_repo dw).1 ≠ [] then
            Event.print 2 "Available branches:" ::
              (pySorted (get_available_branches args.frappe_repo dw).1).map
                (fun b => Event.print 3 ("  - " ++ b))
          else [Event.print 1 "Could not fetch branches. Please check the repository URL."])),
       Outcome.normal) := by
    simp [program, h]
  refine ⟨hp, ?_, pySorted_sorted _, pySorted_perm _⟩
  rw [hp]
  by_cases hb : (get_available_branches args.frappe_repo dw).1 = [] <;>
    simp [hb, List.filter_append, ga_no_subprocess, isBenchSubprocess,
      filter_isBench_prints]

theorem c7_witness :
    listBranchesOptions.list_branches = true ∧
    program listBranchesOptions apiOkWorld ⟨none, 0, ""⟩ ⟨none⟩ =
      ([Event.print 2 "Fetching available branches from https://github.com/sin-ev/backend...",
        Event.httpGet "https://api.github.com/repos/sin-ev/backend/branches",
        Event.print 2 "Available branches:",
        Event.print 3 "  - main",
        Event.print 3 "  - version-12"], Outcome.normal) ∧
    (program listBranchesOptions apiOkWorld ⟨none, 0, ""⟩ ⟨none⟩).1.filter
      isBenchSubprocess = [] := by
  have h := c7_list_branches_only_lists listBranchesOptions apiOkWorld
    ⟨none, 0, ""⟩ ⟨none⟩ rfl
  exact ⟨rfl, h.1.trans (by decide), h.2.1⟩

end Installer
